import Mathlib

/-!
Verification of the WinSparkle auto-update orchestrator
(`chrome/browser/win/winsparkle_glue.cc` / `.h`).

The C++ file keeps five globals (`g_initialized`, `g_status`,
`g_update_ready`, `g_pending_version`, `g_last_error`) plus a
process-wide observer list, mutated only on the UI thread.  Foreign
WinSparkle callbacks post a single task each to the UI-thread task
queue, which executes them in FIFO order.  We embed the UI-thread view:
a state record, the callback functions as task producers, a task
interpreter, and an event-level step function that serializes the
UI-thread execution.  Observable effects (observer notifications,
BuildState notification, native-API calls) are collected as an action
trace.
-/

namespace WinSparkleGlue

/-- `enum class WinSparkleStatus` from winsparkle_glue.h. -/
inductive WinSparkleStatus
  | kIdle
  | kChecking
  | kUpdateAvailable
  | kDownloading
  | kReadyToInstall
  | kInstalling
  | kUpToDate
  | kError
  deriving DecidableEq, Repr

/-- Process environment fixed for a run: the command-line flags read in
`Initialize`, and whether `g_browser_process` / its `BuildState` exist
(checked in `NotifyUpgradeReady`). -/
structure Env where
  forceCheckFlag : Bool
  appcastOverride : Option String
  hasBrowserProcess : Bool
  hasBuildState : Bool
  deriving DecidableEq, Repr

/-- The orchestrator's mutable global state (the `g_*` globals of
winsparkle_glue.cc plus the observer list, identified by `Nat` ids),
together with the immutable environment. -/
structure GlueState where
  initialized : Bool
  status : WinSparkleStatus
  updateReady : Bool
  pendingVersion : String
  lastError : String
  observers : List Nat
  appcastUrl : String
  env : Env
  deriving DecidableEq, Repr

/-- Compiled-in appcast URL (`kAppcastUrl`). -/
def kAppcastUrl : String := "https://cdn.browseros.com/appcast-windows-x64.xml"

/-- Globals at process start: `g_initialized = false`,
`g_status = kIdle`, `g_update_ready = false`, empty strings, no
observers. -/
def mkState0 (env : Env) : GlueState :=
  { initialized := false
    status := WinSparkleStatus.kIdle
    updateReady := false
    pendingVersion := ""
    lastError := ""
    observers := []
    appcastUrl := ""
    env := env }

/-- Externally observable effects, recorded in order of occurrence. -/
inductive Action
  | registerAgent
  | cleanupAgent
  | notifyStatus (obs : Nat) (st : WinSparkleStatus)
  | notifyError (obs : Nat) (msg : String)
  | setBuildState (version : String)
  | agentCheckUI
  deriving DecidableEq, Repr

/-- Units of work posted to the UI-thread task queue. -/
inductive Task
  | setStatusTask (st : WinSparkleStatus) (err : String)
  | updateReadyTask (version : String)
  | agentCheckTask
  deriving DecidableEq, Repr

/-- The five WinSparkle status callback functions defined in the
anonymous namespace of winsparkle_glue.cc.  (The two shutdown-handshake
callbacks, `CanShutdownCallback` and `ShutdownRequestCallback`, never
touch the status model and are modelled separately below.) -/
inductive ForeignCallback
  | didFindUpdate
  | didNotFindUpdate
  | updateCancelled
  | error
  | updateDownloaded
  deriving DecidableEq, Repr

/-- The observer loop of `SetStatusOnUIThread`: for each observer in
order, `OnWinSparkleStatusChanged(status)` and, when an error message is
present, `OnWinSparkleError(error_message)`. -/
def notifyObservers (obs : List Nat) (st : WinSparkleStatus) (errMsg : String) :
    List Action :=
  (obs.map (fun o =>
    Action.notifyStatus o st ::
      (if errMsg = "" then [] else [Action.notifyError o errMsg]))).flatten

/-- `SetStatusOnUIThread`: assigns `g_status`, records a non-empty
error message into `g_last_error`, and runs the observer loop. -/
def setStatusOnUIThread (s : GlueState) (st : WinSparkleStatus) (errMsg : String) :
    GlueState × List Action :=
  ({ s with
      status := st
      lastError := if errMsg = "" then s.lastError else errMsg },
   notifyObservers s.observers st errMsg)

/-- `NotifyUpgradeReady`: bails out when there is no browser process or
no `BuildState`; otherwise calls `BuildState::SetUpdate` with the given
version. -/
def notifyUpgradeReady (s : GlueState) (version : String) : List Action :=
  if s.env.hasBrowserProcess && s.env.hasBuildState then
    [Action.setBuildState version]
  else []

/-- `HandleUpdateReadyOnUIThread`: sets `g_update_ready`, records the
pending version, runs `SetStatusOnUIThread(kReadyToInstall)` and then
`NotifyUpgradeReady(version)`. -/
def handleUpdateReadyOnUIThread (s : GlueState) (version : String) :
    GlueState × List Action :=
  let s1 := { s with updateReady := true, pendingVersion := version }
  let r := setStatusOnUIThread s1 WinSparkleStatus.kReadyToInstall ""
  (r.1, r.2 ++ notifyUpgradeReady r.1 version)

/-- The single UI-thread task each foreign status callback posts:
`DidFindUpdateCallback` posts `kUpdateAvailable`, `DidNotFindUpdateCallback`
posts `kUpToDate`, `UpdateCancelledCallback` posts `kIdle`,
`ErrorCallback` posts `kError` with the fixed message
"Update check failed", and `UpdateDownloadedCallback` posts
`HandleUpdateReadyOnUIThread` with the placeholder version "latest". -/
def foreignPost : ForeignCallback → Task
  | ForeignCallback.didFindUpdate =>
      Task.setStatusTask WinSparkleStatus.kUpdateAvailable ""
  | ForeignCallback.didNotFindUpdate =>
      Task.setStatusTask WinSparkleStatus.kUpToDate ""
  | ForeignCallback.updateCancelled =>
      Task.setStatusTask WinSparkleStatus.kIdle ""
  | ForeignCallback.error =>
      Task.setStatusTask WinSparkleStatus.kError "Update check failed"
  | ForeignCallback.updateDownloaded =>
      Task.updateReadyTask "latest"

/-- UI-thread execution of one posted task.  The task posted by
`CheckForUpdates` re-checks `g_initialized` before calling
`win_sparkle_check_update_with_ui`. -/
def runTask (s : GlueState) : Task → GlueState × List Action
  | Task.setStatusTask st err => setStatusOnUIThread s st err
  | Task.updateReadyTask v => handleUpdateReadyOnUIThread s v
  | Task.agentCheckTask =>
      (s, if s.initialized then [Action.agentCheckUI] else [])

/-- FIFO execution of a queue of posted tasks. -/
def runTasks (s : GlueState) : List Task → GlueState × List Action
  | [] => (s, [])
  | t :: ts =>
      let r := runTask s t
      let r2 := runTasks r.1 ts
      (r2.1, r.2 ++ r2.2)

/-- Configuration resolution in `Initialize`: the `winsparkle-appcast-url`
command-line switch overrides the compiled-in `kAppcastUrl`. -/
def resolveAppcastUrl (override : Option String) : String :=
  match override with
  | some u => u
  | none => kAppcastUrl

/-- `Initialize()`: if already initialized, returns immediately with no
effect.  Otherwise resolves the appcast URL, registers the native
callbacks with WinSparkle and starts it (`registerAgent`), sets
`g_initialized` and `g_status = kIdle`, and — when the
`winsparkle-force-check` flag is set — schedules one delayed
`CheckForUpdates` (returned as the `Bool` component; it is a delayed
task, not executed inline). -/
def doInit (s : GlueState) : GlueState × List Action × Bool :=
  if s.initialized then (s, [], false)
  else
    ({ s with
        initialized := true
        status := WinSparkleStatus.kIdle
        appcastUrl := resolveAppcastUrl s.env.appcastOverride },
     [Action.registerAgent],
     s.env.forceCheckFlag)

/-- `Cleanup()`: no-op when not initialized; otherwise calls
`win_sparkle_cleanup` and resets all globals. -/
def doCleanup (s : GlueState) : GlueState × List Action :=
  if s.initialized then
    ({ s with
        initialized := false
        status := WinSparkleStatus.kIdle
        updateReady := false
        pendingVersion := ""
        lastError := "" },
     [Action.cleanupAgent])
  else (s, [])

/-- `CheckForUpdates()`: no-op when not initialized.  Otherwise sets
`g_status = kChecking`, synchronously notifies every observer with
`OnWinSparkleStatusChanged(kChecking)`, and posts the WinSparkle call
as a separate task.  Result: (new state, synchronous actions, posted
tasks). -/
def doCheckForUpdates (s : GlueState) : GlueState × List Action × List Task :=
  if s.initialized then
    ({ s with status := WinSparkleStatus.kChecking },
     s.observers.map (fun o => Action.notifyStatus o WinSparkleStatus.kChecking),
     [Task.agentCheckTask])
  else (s, [], [])

/-- `IsEnabled()`. -/
def isEnabled (s : GlueState) : Bool := s.initialized

/-- `IsUpdateReady()`. -/
def isUpdateReady (s : GlueState) : Bool := s.updateReady

/-- `GetStatus()`. -/
def getStatus (s : GlueState) : WinSparkleStatus := s.status

/-- `CanShutdownCallback`: answered synchronously on the foreign thread
from `chrome::AreAllBrowsersCloseable()`; it never touches the status
model. -/
def canShutdownCallback (allBrowsersCloseable : Bool) : Nat :=
  if allBrowsersCloseable then 1 else 0

/-- UI-thread-serialized events driving the orchestrator: the public
entry points, delivery of a posted foreign-callback task, and observer
registration.  `foreignEvt c` stands for the UI-thread execution of the
task that callback `c` posted; the queue preserves posting order, so a
trace of events is exactly an interleaving in arrival order. -/
inductive Event
  | initEvt
  | cleanupEvt
  | checkEvt
  | foreignEvt (c : ForeignCallback)
  | addObsEvt (o : Nat)
  | removeObsEvt (o : Nat)
  deriving DecidableEq, Repr

/-- One UI-thread step.  For `checkEvt` the posted agent-check task runs
on a later tick but before any other event we deliver, so it is folded
into the step (it mutates no state).  The delayed force-check task from
`doInit` is not auto-run: it only issues a later `checkEvt`. -/
def stepEv (s : GlueState) : Event → GlueState × List Action
  | Event.initEvt =>
      let r := doInit s
      (r.1, r.2.1)
  | Event.cleanupEvt => doCleanup s
  | Event.checkEvt =>
      let r := doCheckForUpdates s
      let r2 := runTasks r.1 r.2.2
      (r2.1, r.2.1 ++ r2.2)
  | Event.foreignEvt c => runTask s (foreignPost c)
  | Event.addObsEvt o =>
      ({ s with observers :=
          if s.observers.contains o then s.observers else s.observers ++ [o] },
       [])
  | Event.removeObsEvt o =>
      ({ s with observers := s.observers.filter (fun x => x ≠ o) }, [])

/-- Run a sequence of events, collecting the action trace in order. -/
def runEvents (s : GlueState) : List Event → GlueState × List Action
  | [] => (s, [])
  | e :: es =>
      let r := stepEv s e
      let r2 := runEvents r.1 es
      (r2.1, r.2 ++ r2.2)

/-- A trace is valid when foreign-callback tasks are only delivered
while the orchestrator is initialized (WinSparkle callbacks are only
registered between `win_sparkle_init` and `win_sparkle_cleanup`). -/
def validFrom (s : GlueState) : List Event → Bool
  | [] => true
  | e :: es =>
      (match e with
       | Event.foreignEvt _ => s.initialized
       | _ => true) && validFrom (stepEv s e).1 es

/-- The status each foreign status callback drives the model to. -/
def cbTarget : ForeignCallback → WinSparkleStatus
  | ForeignCallback.didFindUpdate => WinSparkleStatus.kUpdateAvailable
  | ForeignCallback.didNotFindUpdate => WinSparkleStatus.kUpToDate
  | ForeignCallback.updateCancelled => WinSparkleStatus.kIdle
  | ForeignCallback.error => WinSparkleStatus.kError
  | ForeignCallback.updateDownloaded => WinSparkleStatus.kReadyToInstall

/-- One row of the (amended) §4.2 table: each callback sets the state
unconditionally. -/
def tableStep (st : WinSparkleStatus) (c : ForeignCallback) : WinSparkleStatus :=
  match st, c with
  | _, c => cbTarget c

/-- Keep only the `OnWinSparkleStatusChanged` notifications of a trace. -/
def statusNotifs (acts : List Action) : List Action :=
  acts.filter (fun a =>
    match a with
    | Action.notifyStatus _ _ => true
    | _ => false)

/-- Count `OnWinSparkleStatusChanged(kChecking)` notifications. -/
def countCheckingNotifs (acts : List Action) : Nat :=
  (acts.filter (fun a =>
    match a with
    | Action.notifyStatus _ st => st = WinSparkleStatus.kChecking
    | _ => false)).length

/-- Count native-callback registrations with the agent. -/
def countRegister (acts : List Action) : Nat :=
  (acts.filter (fun a =>
    match a with
    | Action.registerAgent => true
    | _ => false)).length

/-- Count Host Adapter (`BuildState::SetUpdate`) notifications. -/
def countBuildStateNotifs (acts : List Action) : Nat :=
  (acts.filter (fun a =>
    match a with
    | Action.setBuildState _ => true
    | _ => false)).length

/-! Spec-side model of the §4.2 transition table, for comparison with
the code's state machine. -/

/-- Modelled from the spec: the §3 Status Model payload (`state`,
`progressPercent`, `pendingVersion`, `lastError`). -/
structure SpecStatus where
  state : WinSparkleStatus
  progressPercent : Nat
  pendingVersion : String
  lastError : String
  deriving DecidableEq, Repr

/-- Modelled from the spec: the §4.2 / §6 foreign-agent callback
alphabet (`OnUpdateFound`, `OnNoUpdateFound`, `OnCancelledByUser`,
`OnDownloadProgress(percent)`, `OnDownloadComplete`,
`OnError(message)`). -/
inductive SpecCallback
  | updateFound
  | noUpdateFound
  | cancelled
  | downloadProgress (n : Nat)
  | downloadComplete (v : String)
  | error (msg : String)
  deriving DecidableEq, Repr

/-- Modelled from the spec: the §4.2 transition table — update found ↦
UpdateAvailable, no update found ↦ UpToDate, cancelled ↦ Idle, download
progress(N) ↦ Downloading with progress=N, download complete ↦
ReadyToInstall with pendingVersion=V, error(msg) ↦ Error with
lastError=msg. -/
def specTransition (st : SpecStatus) : SpecCallback → SpecStatus
  | SpecCallback.updateFound =>
      { st with state := WinSparkleStatus.kUpdateAvailable }
  | SpecCallback.noUpdateFound =>
      { st with state := WinSparkleStatus.kUpToDate }
  | SpecCallback.cancelled =>
      { st with state := WinSparkleStatus.kIdle }
  | SpecCallback.downloadProgress n =>
      { st with state := WinSparkleStatus.kDownloading, progressPercent := n }
  | SpecCallback.downloadComplete v =>
      { st with state := WinSparkleStatus.kReadyToInstall, pendingVersion := v }
  | SpecCallback.error m =>
      { st with state := WinSparkleStatus.kError, lastError := m }

/-- Spec-side initial Status Model. -/
def specStatus0 : SpecStatus :=
  { state := WinSparkleStatus.kIdle
    progressPercent := 0
    pendingVersion := ""
    lastError := "" }

/-! Concrete states used by counterexamples and witnesses. -/

/-- A concrete run environment: no force-check flag, no appcast
override, browser process and build state present. -/
def env0 : Env :=
  { forceCheckFlag := false
    appcastOverride := none
    hasBrowserProcess := true
    hasBuildState := true }

/-- Process-start state under `env0`. -/
def state0 : GlueState := mkState0 env0

/-- State right after a first `Initialize()`. -/
def stateInit : GlueState := (runEvents state0 [Event.initEvt]).1

/-- State after `Initialize()`, one observer registration and one
`CheckForUpdates()`: the status is `kChecking` with a check in
flight. -/
def stateChecking : GlueState :=
  (runEvents state0 [Event.initEvt, Event.addObsEvt 0, Event.checkEvt]).1

/-! Helper lemmas about single steps and traces. -/

theorem statusNotifs_append (a b : List Action) :
    statusNotifs (a ++ b) = statusNotifs a ++ statusNotifs b := by
  simp [statusNotifs, List.filter_append]

theorem statusNotifs_notifyObservers (obs : List Nat) (st : WinSparkleStatus)
    (err : String) :
    statusNotifs (notifyObservers obs st err) =
      obs.map (fun o => Action.notifyStatus o st) := by
  induction obs with
  | nil => rfl
  | cons o os ih =>
      by_cases h : err = "" <;>
        simp [notifyObservers, statusNotifs, List.filter_append, h] at ih ⊢ <;>
        exact ih

theorem setBuildState_not_mem_notifyObservers (obs : List Nat)
    (st : WinSparkleStatus) (err v : String) :
    ¬ Action.setBuildState v ∈ notifyObservers obs st err := by
  induction obs with
  | nil => simp [notifyObservers]
  | cons o os ih =>
      by_cases h : err = "" <;>
        simp [notifyObservers, h] at ih ⊢ <;> exact ih

theorem countBuildStateNotifs_notifyObservers (obs : List Nat)
    (st : WinSparkleStatus) (err : String) :
    countBuildStateNotifs (notifyObservers obs st err) = 0 := by
  induction obs with
  | nil => rfl
  | cons o os ih =>
      by_cases h : err = "" <;>
        simp [notifyObservers, countBuildStateNotifs, List.filter_append, h]
          at ih ⊢ <;>
        exact ih

theorem stepEv_foreign_status (s : GlueState) (c : ForeignCallback) :
    (stepEv s (Event.foreignEvt c)).1.status = cbTarget c := by
  cases c <;>
    simp [stepEv, runTask, foreignPost, handleUpdateReadyOnUIThread,
      setStatusOnUIThread, cbTarget]

theorem stepEv_foreign_observers (s : GlueState) (c : ForeignCallback) :
    (stepEv s (Event.foreignEvt c)).1.observers = s.observers := by
  cases c <;>
    simp [stepEv, runTask, foreignPost, handleUpdateReadyOnUIThread,
      setStatusOnUIThread]

theorem stepEv_foreign_initialized (s : GlueState) (c : ForeignCallback) :
    (stepEv s (Event.foreignEvt c)).1.initialized = s.initialized := by
  cases c <;>
    simp [stepEv, runTask, foreignPost, handleUpdateReadyOnUIThread,
      setStatusOnUIThread]

theorem stepEv_foreign_statusNotifs (s : GlueState) (c : ForeignCallback) :
    statusNotifs (stepEv s (Event.foreignEvt c)).2 =
      s.observers.map (fun o => Action.notifyStatus o (cbTarget c)) := by
  cases c <;>
    simp [stepEv, runTask, foreignPost, handleUpdateReadyOnUIThread,
      setStatusOnUIThread, cbTarget, statusNotifs_append,
      statusNotifs_notifyObservers, notifyUpgradeReady] <;>
    split <;> simp [statusNotifs]

theorem stepEv_env (s : GlueState) (e : Event) : (stepEv s e).1.env = s.env := by
  cases e with
  | initEvt => by_cases h : s.initialized <;> simp [stepEv, doInit, h]
  | cleanupEvt => by_cases h : s.initialized <;> simp [stepEv, doCleanup, h]
  | checkEvt =>
      by_cases h : s.initialized <;>
        simp [stepEv, doCheckForUpdates, runTasks, runTask, h]
  | foreignEvt c =>
      cases c <;>
        simp [stepEv, runTask, foreignPost, handleUpdateReadyOnUIThread,
          setStatusOnUIThread]
  | addObsEvt o => simp [stepEv]
  | removeObsEvt o => simp [stepEv]

theorem runEvents_append (s : GlueState) (es es' : List Event) :
    runEvents s (es ++ es') =
      ((runEvents (runEvents s es).1 es').1,
       (runEvents s es).2 ++ (runEvents (runEvents s es).1 es').2) := by
  induction es generalizing s with
  | nil => simp [runEvents]
  | cons e es ih => simp [runEvents, ih, List.append_assoc]

/-- While the controller is not initialized, the status model is in its
reset configuration (true at process start and re-established by
`Cleanup`; foreign callbacks are only delivered while initialized). -/
def uninitClean (s : GlueState) : Prop :=
  s.initialized = false →
    s.status = WinSparkleStatus.kIdle ∧ s.updateReady = false ∧
      s.pendingVersion = "" ∧ s.lastError = ""

theorem uninitClean_step (s : GlueState) (e : Event) (hs : uninitClean s)
    (hv : (match e with
           | Event.foreignEvt _ => s.initialized
           | _ => true) = true) :
    uninitClean (stepEv s e).1 := by
  cases e with
  | initEvt =>
      by_cases h : s.initialized <;>
        simp [stepEv, doInit, h, uninitClean] at hs ⊢ <;> simp [hs, h]
  | cleanupEvt =>
      by_cases h : s.initialized <;>
        simp [stepEv, doCleanup, h, uninitClean] at hs ⊢ <;> simp [hs, h]
  | checkEvt =>
      by_cases h : s.initialized <;>
        simp [stepEv, doCheckForUpdates, runTasks, runTask, h, uninitClean]
          at hs ⊢ <;>
        simp [hs, h]
  | foreignEvt c =>
      intro hinit
      rw [stepEv_foreign_initialized] at hinit
      simp at hv
      rw [hv] at hinit
      cases hinit
  | addObsEvt o =>
      simp [stepEv, uninitClean] at hs ⊢
      exact hs
  | removeObsEvt o =>
      simp [stepEv, uninitClean] at hs ⊢
      exact hs

theorem uninitClean_run (s : GlueState) (es : List Event) (hs : uninitClean s)
    (hv : validFrom s es = true) :
    uninitClean (runEvents s es).1 := by
  induction es generalizing s with
  | nil => simpa [runEvents] using hs
  | cons e es ih =>
      simp [validFrom, Bool.and_eq_true] at hv
      simp [runEvents]
      exact ih (stepEv s e).1 (uninitClean_step s e hs hv.1) hv.2

theorem uninitClean_mkState0 (env : Env) : uninitClean (mkState0 env) := by
  simp [uninitClean, mkState0]

theorem countBuildStateNotifs_append (a b : List Action) :
    countBuildStateNotifs (a ++ b) =
      countBuildStateNotifs a + countBuildStateNotifs b := by
  simp [countBuildStateNotifs, List.filter_append]

theorem countBuildStateNotifs_notifyList (obs : List Nat)
    (st : WinSparkleStatus) :
    countBuildStateNotifs (obs.map (fun o => Action.notifyStatus o st)) = 0 := by
  induction obs with
  | nil => rfl
  | cons o os ih => simpa [countBuildStateNotifs, List.filter] using ih

theorem countBuildStateNotifs_step (s : GlueState) (e : Event)
    (hbp : s.env.hasBrowserProcess = true) (hbs : s.env.hasBuildState = true) :
    countBuildStateNotifs (stepEv s e).2 =
      (if e = Event.foreignEvt ForeignCallback.updateDownloaded then 1 else 0) := by
  cases e with
  | initEvt =>
      by_cases h : s.initialized <;>
        simp [stepEv, doInit, h, countBuildStateNotifs]
  | cleanupEvt =>
      by_cases h : s.initialized <;>
        simp [stepEv, doCleanup, h, countBuildStateNotifs]
  | checkEvt =>
      by_cases h : s.initialized <;>
        simp [stepEv, doCheckForUpdates, runTasks, runTask, h,
          countBuildStateNotifs, countBuildStateNotifs_append,
          countBuildStateNotifs_notifyList, List.filter_append]
  | foreignEvt c =>
      cases c <;>
        simp [stepEv, runTask, foreignPost, handleUpdateReadyOnUIThread,
          setStatusOnUIThread, notifyUpgradeReady, hbp, hbs,
          countBuildStateNotifs, countBuildStateNotifs_append,
          List.filter_append] <;>
        (intro a ha
         cases a <;>
           first
           | rfl
           | exact absurd ha (setBuildState_not_mem_notifyObservers _ _ _ _))
  | addObsEvt o => simp [stepEv, countBuildStateNotifs]
  | removeObsEvt o => simp [stepEv, countBuildStateNotifs]

theorem runEvents_env (s : GlueState) (es : List Event) :
    (runEvents s es).1.env = s.env := by
  induction es generalizing s with
  | nil => simp [runEvents]
  | cons e es ih => simp [runEvents, ih, stepEv_env]

theorem countBuildStateNotifs_runEvents (s : GlueState) (es : List Event)
    (hbp : s.env.hasBrowserProcess = true) (hbs : s.env.hasBuildState = true) :
    countBuildStateNotifs (runEvents s es).2 =
      (es.filter
        (fun e => e = Event.foreignEvt ForeignCallback.updateDownloaded)).length := by
  induction es generalizing s with
  | nil => simp [runEvents, countBuildStateNotifs]
  | cons e es ih =>
      have he := stepEv_env s e
      have ih2 := ih (stepEv s e).1 (by rw [he]; exact hbp) (by rw [he]; exact hbs)
      have hstep := countBuildStateNotifs_step s e hbp hbs
      simp only [runEvents, countBuildStateNotifs_append, hstep, ih2,
        List.filter_cons]
      by_cases h : e = Event.foreignEvt ForeignCallback.updateDownloaded <;>
        simp [h] <;> omega

theorem stepEv_updateDownloaded_pending (s : GlueState) :
    (stepEv s (Event.foreignEvt ForeignCallback.updateDownloaded)).1.pendingVersion
      = "latest" := by
  simp [stepEv, runTask, foreignPost, handleUpdateReadyOnUIThread,
    setStatusOnUIThread]

/-! Claim theorems. -/

/-- C1 counterexample: the §4.2 table maps a download-progress callback
to `Downloading` with the delivered percentage, but the orchestrator has
no download-progress callback at all: the five foreign status callbacks
it defines drive the status to `kUpdateAvailable`, `kUpToDate`, `kIdle`,
`kError` and `kReadyToInstall` respectively, and none of them ever
produces `kDownloading` (nor does the glue state even record a progress
percentage). -/
theorem C1_counterexample :
    (specTransition specStatus0 (SpecCallback.downloadProgress 55)).state =
        WinSparkleStatus.kDownloading ∧
    (specTransition specStatus0 (SpecCallback.downloadProgress 55)).progressPercent
        = 55 ∧
    ([ForeignCallback.didFindUpdate, ForeignCallback.didNotFindUpdate,
      ForeignCallback.updateCancelled, ForeignCallback.error,
      ForeignCallback.updateDownloaded].map
        (fun c => (stepEv stateInit (Event.foreignEvt c)).1.status)) =
      [WinSparkleStatus.kUpdateAvailable, WinSparkleStatus.kUpToDate,
       WinSparkleStatus.kIdle, WinSparkleStatus.kError,
       WinSparkleStatus.kReadyToInstall] ∧
    ¬ WinSparkleStatus.kDownloading ∈
      ([ForeignCallback.didFindUpdate, ForeignCallback.didNotFindUpdate,
        ForeignCallback.updateCancelled, ForeignCallback.error,
        ForeignCallback.updateDownloaded].map
          (fun c => (stepEv stateInit (Event.foreignEvt c)).1.status)) := by
  decide

/-- C1 (amended): for every sequence of the orchestrator's foreign
status callbacks, processed in arrival order, the resulting status is
the left fold of the per-callback transition table (update found ↦
UpdateAvailable, no update found ↦ UpToDate, cancelled ↦ Idle, error ↦
Error, download complete ↦ ReadyToInstall), and the sequence of
status-changed notifications delivered to the observers is exactly the
table's targets in the same order — no transition skipped or reordered.
There is no download-progress callback and no `Downloading` transition. -/
theorem C1_table_correspondence (s : GlueState) (cs : List ForeignCallback) :
    (runEvents s (cs.map Event.foreignEvt)).1.status =
        cs.foldl tableStep s.status ∧
    statusNotifs (runEvents s (cs.map Event.foreignEvt)).2 =
      (cs.map (fun c =>
        s.observers.map (fun o => Action.notifyStatus o (cbTarget c)))).flatten := by
  induction cs generalizing s with
  | nil => simp [runEvents, statusNotifs]
  | cons c cs ih =>
      have ihh := ih (stepEv s (Event.foreignEvt c)).1
      constructor
      · simp only [List.map_cons, runEvents, List.foldl_cons]
        rw [ihh.1, stepEv_foreign_status]
        rfl
      · simp only [List.map_cons, runEvents, statusNotifs_append]
        rw [ihh.2, stepEv_foreign_statusNotifs, stepEv_foreign_observers,
          List.flatten_cons]

/-- C2 counterexample: after `Initialize()`, one observer and one
`CheckForUpdates()`, the status is already `kChecking`; yet the run with
a second `CheckForUpdates()` delivers two `kChecking` status-changed
notifications to the observer — the second call is not coalesced, it
re-notifies. -/
theorem C2_counterexample :
    getStatus stateChecking = WinSparkleStatus.kChecking ∧
    countCheckingNotifs
      (runEvents state0
        [Event.initEvt, Event.addObsEvt 0, Event.checkEvt, Event.checkEvt]).2
      = 2 := by
  decide

/-- C2 (amended): `CheckForUpdates()` called while the status is already
`Checking` is not coalesced: whenever the controller is initialized it
unconditionally re-enters `Checking` and synchronously emits one more
`Checking` status-changed notification to every registered observer;
the only guard in the call is the initialized flag. -/
theorem C2_second_check_notifies (s : GlueState) (h : s.initialized = true)
    (hc : s.status = WinSparkleStatus.kChecking) :
    (doCheckForUpdates s).1.status = WinSparkleStatus.kChecking ∧
    (doCheckForUpdates s).2.1 =
      s.observers.map (fun o => Action.notifyStatus o WinSparkleStatus.kChecking) := by
  simp [doCheckForUpdates, h]

/-- C2 witness: the amended statement at the concrete in-flight state. -/
theorem C2_second_check_notifies_witness :
    stateChecking.initialized = true ∧
    stateChecking.status = WinSparkleStatus.kChecking ∧
    ((doCheckForUpdates stateChecking).1.status = WinSparkleStatus.kChecking ∧
     (doCheckForUpdates stateChecking).2.1 =
       stateChecking.observers.map
         (fun o => Action.notifyStatus o WinSparkleStatus.kChecking)) :=
  ⟨by decide, by decide,
   C2_second_check_notifies stateChecking (by decide) (by decide)⟩

/-- C3 counterexample: the orchestrator's error callback carries no
message; after an agent error the recorded `lastError` is the fixed
string "Update check failed", not an agent-supplied message such as
"network down". -/
theorem C3_counterexample :
    (runEvents state0
      [Event.initEvt, Event.foreignEvt ForeignCallback.error]).1.lastError =
        "Update check failed" ∧
    ¬ (runEvents state0
        [Event.initEvt, Event.foreignEvt ForeignCallback.error]).1.lastError =
          "network down" := by
  decide

/-- C3 (amended): when the foreign agent reports an error, the status
becomes `Error` and `lastError` is the fixed message
"Update check failed" (the agent callback has no message parameter); a
subsequent `CheckForUpdates()` transitions the status back to
`Checking`. -/
theorem C3_error_then_check (s : GlueState) (h : s.initialized = true) :
    (stepEv s (Event.foreignEvt ForeignCallback.error)).1.status =
        WinSparkleStatus.kError ∧
    (stepEv s (Event.foreignEvt ForeignCallback.error)).1.lastError =
        "Update check failed" ∧
    (stepEv (stepEv s (Event.foreignEvt ForeignCallback.error)).1
        Event.checkEvt).1.status = WinSparkleStatus.kChecking := by
  refine ⟨?_, ?_, ?_⟩ <;>
    simp [stepEv, runTask, foreignPost, setStatusOnUIThread,
      doCheckForUpdates, runTasks, h]

/-- C3 witness: the amended statement right after `Initialize()`. -/
theorem C3_error_then_check_witness :
    stateInit.initialized = true ∧
    ((stepEv stateInit (Event.foreignEvt ForeignCallback.error)).1.status =
        WinSparkleStatus.kError ∧
     (stepEv stateInit (Event.foreignEvt ForeignCallback.error)).1.lastError =
        "Update check failed" ∧
     (stepEv (stepEv stateInit (Event.foreignEvt ForeignCallback.error)).1
        Event.checkEvt).1.status = WinSparkleStatus.kChecking) :=
  ⟨by decide, C3_error_then_check stateInit (by decide)⟩

/-- C4: whenever the download-complete callback is the last event
processed (and the browser process and its BuildState exist), the final
status is `ReadyToInstall` with a non-empty pending version; processing
that event notifies the Host Adapter's update indicator exactly once,
and over the whole run the indicator is notified exactly once per
download-complete event. -/
theorem C4_download_complete (env : Env) (es : List Event)
    (hbp : env.hasBrowserProcess = true) (hbs : env.hasBuildState = true) :
    getStatus (runEvents (mkState0 env)
        (es ++ [Event.foreignEvt ForeignCallback.updateDownloaded])).1 =
      WinSparkleStatus.kReadyToInstall ∧
    ¬ (runEvents (mkState0 env)
        (es ++ [Event.foreignEvt ForeignCallback.updateDownloaded])).1.pendingVersion
        = "" ∧
    countBuildStateNotifs
      (stepEv (runEvents (mkState0 env) es).1
        (Event.foreignEvt ForeignCallback.updateDownloaded)).2 = 1 ∧
    countBuildStateNotifs (runEvents (mkState0 env)
        (es ++ [Event.foreignEvt ForeignCallback.updateDownloaded])).2 =
      ((es ++ [Event.foreignEvt ForeignCallback.updateDownloaded]).filter
        (fun e => e = Event.foreignEvt ForeignCallback.updateDownloaded)).length := by
  have henv : (runEvents (mkState0 env) es).1.env = env := runEvents_env _ _
  refine ⟨?_, ?_, ?_, ?_⟩
  · rw [runEvents_append]
    simp [runEvents, getStatus, stepEv_foreign_status, cbTarget]
  · rw [runEvents_append]
    simp [runEvents, stepEv_updateDownloaded_pending]
  · rw [countBuildStateNotifs_step _ _ (by rw [henv]; exact hbp)
      (by rw [henv]; exact hbs)]
    simp
  · exact countBuildStateNotifs_runEvents (mkState0 env) _ hbp hbs

/-- C4 witness: the scenario `Initialize()` then download complete. -/
theorem C4_download_complete_witness :
    env0.hasBrowserProcess = true ∧ env0.hasBuildState = true ∧
    (getStatus (runEvents (mkState0 env0)
        ([Event.initEvt] ++ [Event.foreignEvt ForeignCallback.updateDownloaded])).1 =
      WinSparkleStatus.kReadyToInstall ∧
    ¬ (runEvents (mkState0 env0)
        ([Event.initEvt] ++ [Event.foreignEvt ForeignCallback.updateDownloaded])).1.pendingVersion
        = "" ∧
    countBuildStateNotifs
      (stepEv (runEvents (mkState0 env0) [Event.initEvt]).1
        (Event.foreignEvt ForeignCallback.updateDownloaded)).2 = 1 ∧
    countBuildStateNotifs (runEvents (mkState0 env0)
        ([Event.initEvt] ++ [Event.foreignEvt ForeignCallback.updateDownloaded])).2 =
      (([Event.initEvt] ++ [Event.foreignEvt ForeignCallback.updateDownloaded]).filter
        (fun e => e = Event.foreignEvt ForeignCallback.updateDownloaded)).length) :=
  ⟨by decide, by decide,
   C4_download_complete env0 [Event.initEvt] (by decide) (by decide)⟩

/-- C5: `Initialize()` is idempotent — on an already-initialized state a
second call returns immediately with no state change, no observable
action and no scheduled force-check; and a double-`Initialize()` run
registers the native callbacks with the foreign agent exactly once. -/
theorem C5_init_idempotent (s : GlueState) (h : s.initialized = true) :
    doInit s = (s, [], false) ∧
    countRegister (runEvents state0 [Event.initEvt, Event.initEvt]).2 = 1 := by
  refine ⟨?_, by decide⟩
  simp [doInit, h]

/-- C5 witness: the second `Initialize()` after a first one. -/
theorem C5_init_idempotent_witness :
    stateInit.initialized = true ∧
    (doInit stateInit = (stateInit, [], false) ∧
     countRegister (runEvents state0 [Event.initEvt, Event.initEvt]).2 = 1) :=
  ⟨by decide, C5_init_idempotent stateInit (by decide)⟩

/-- C6: after `Cleanup()` following any valid sequence of
initialize/callback/check events, the status is `Idle`,
`IsUpdateReady()` is false and the pending-version and last-error
fields are cleared; `Cleanup()` on an uninitialized controller is a
no-op. -/
theorem C6_cleanup_resets (env : Env) (es : List Event)
    (hv : validFrom (mkState0 env) es = true) :
    getStatus (doCleanup (runEvents (mkState0 env) es).1).1 =
        WinSparkleStatus.kIdle ∧
    isUpdateReady (doCleanup (runEvents (mkState0 env) es).1).1 = false ∧
    (doCleanup (runEvents (mkState0 env) es).1).1.pendingVersion = "" ∧
    (doCleanup (runEvents (mkState0 env) es).1).1.lastError = "" ∧
    ((runEvents (mkState0 env) es).1.initialized = false →
      doCleanup (runEvents (mkState0 env) es).1 =
        ((runEvents (mkState0 env) es).1, [])) := by
  have hu := uninitClean_run (mkState0 env) es (uninitClean_mkState0 env) hv
  set s := (runEvents (mkState0 env) es).1 with hsdef
  by_cases h : s.initialized
  · simp [doCleanup, h, getStatus, isUpdateReady]
  · have hfalse : s.initialized = false := by simpa using h
    have hfields := hu hfalse
    simp [doCleanup, hfalse, getStatus, isUpdateReady, hfields.1,
      hfields.2.1, hfields.2.2.1, hfields.2.2.2]

/-- C6 witness: cleanup after an initialize-then-error run. -/
theorem C6_cleanup_resets_witness :
    validFrom (mkState0 env0)
        [Event.initEvt, Event.foreignEvt ForeignCallback.error] = true ∧
    (getStatus (doCleanup (runEvents (mkState0 env0)
          [Event.initEvt, Event.foreignEvt ForeignCallback.error]).1).1 =
        WinSparkleStatus.kIdle ∧
     isUpdateReady (doCleanup (runEvents (mkState0 env0)
          [Event.initEvt, Event.foreignEvt ForeignCallback.error]).1).1 = false ∧
     (doCleanup (runEvents (mkState0 env0)
          [Event.initEvt, Event.foreignEvt ForeignCallback.error]).1).1.pendingVersion
        = "" ∧
     (doCleanup (runEvents (mkState0 env0)
          [Event.initEvt, Event.foreignEvt ForeignCallback.error]).1).1.lastError
        = "" ∧
     ((runEvents (mkState0 env0)
          [Event.initEvt, Event.foreignEvt ForeignCallback.error]).1.initialized
          = false →
       doCleanup (runEvents (mkState0 env0)
          [Event.initEvt, Event.foreignEvt ForeignCallback.error]).1 =
         ((runEvents (mkState0 env0)
            [Event.initEvt, Event.foreignEvt ForeignCallback.error]).1, []))) :=
  ⟨by decide,
   C6_cleanup_resets env0 [Event.initEvt, Event.foreignEvt ForeignCallback.error]
     (by decide)⟩

/-- C7: `CheckForUpdates()` on an initialized controller sets the status
to `Checking` and synchronously notifies every registered observer,
in registration order, within the call; the synchronous actions contain
no agent invocation — the call to the agent's check entry point is the
single posted task, executed only on a later scheduling tick. -/
theorem C7_check_sync_before_agent (s : GlueState) (h : s.initialized = true) :
    (doCheckForUpdates s).1.status = WinSparkleStatus.kChecking ∧
    (doCheckForUpdates s).2.1 =
      s.observers.map (fun o => Action.notifyStatus o WinSparkleStatus.kChecking) ∧
    ¬ Action.agentCheckUI ∈ (doCheckForUpdates s).2.1 ∧
    (doCheckForUpdates s).2.2 = [Task.agentCheckTask] ∧
    runTask (doCheckForUpdates s).1 Task.agentCheckTask =
      ((doCheckForUpdates s).1, [Action.agentCheckUI]) := by
  refine ⟨?_, ?_, ?_, ?_, ?_⟩ <;> simp [doCheckForUpdates, runTask, h]

/-- C7 witness: the call with one registered observer. -/
theorem C7_check_sync_before_agent_witness :
    stateChecking.initialized = true ∧
    ((doCheckForUpdates stateChecking).1.status = WinSparkleStatus.kChecking ∧
     (doCheckForUpdates stateChecking).2.1 =
       stateChecking.observers.map
         (fun o => Action.notifyStatus o WinSparkleStatus.kChecking) ∧
     ¬ Action.agentCheckUI ∈ (doCheckForUpdates stateChecking).2.1 ∧
     (doCheckForUpdates stateChecking).2.2 = [Task.agentCheckTask] ∧
     runTask (doCheckForUpdates stateChecking).1 Task.agentCheckTask =
       ((doCheckForUpdates stateChecking).1, [Action.agentCheckUI])) :=
  ⟨by decide, C7_check_sync_before_agent stateChecking (by decide)⟩

theorem stepEv_lastError (s : GlueState) (e : Event)
    (h1 : ¬ e = Event.foreignEvt ForeignCallback.error)
    (h2 : ¬ e = Event.cleanupEvt) :
    (stepEv s e).1.lastError = s.lastError := by
  cases e with
  | initEvt => by_cases h : s.initialized <;> simp [stepEv, doInit, h]
  | cleanupEvt => exact absurd rfl h2
  | checkEvt =>
      by_cases h : s.initialized <;>
        simp [stepEv, doCheckForUpdates, runTasks, runTask, h]
  | foreignEvt c =>
      cases c with
      | error => exact absurd rfl h1
      | didFindUpdate => simp [stepEv, runTask, foreignPost, setStatusOnUIThread]
      | didNotFindUpdate => simp [stepEv, runTask, foreignPost, setStatusOnUIThread]
      | updateCancelled => simp [stepEv, runTask, foreignPost, setStatusOnUIThread]
      | updateDownloaded =>
          simp [stepEv, runTask, foreignPost, handleUpdateReadyOnUIThread,
            setStatusOnUIThread]
  | addObsEvt o => simp [stepEv]
  | removeObsEvt o => simp [stepEv]

/-- C8: the stored error text is sticky — every event other than the
error callback and `Cleanup()` (checks, the non-error callbacks,
observer changes, re-initialization) leaves `lastError` unchanged, and
`Cleanup()` clears it. -/
theorem C8_lastError_sticky (env : Env) (es : List Event) (e : Event)
    (hv : validFrom (mkState0 env) es = true)
    (h1 : ¬ e = Event.foreignEvt ForeignCallback.error)
    (h2 : ¬ e = Event.cleanupEvt) :
    (stepEv (runEvents (mkState0 env) es).1 e).1.lastError =
      (runEvents (mkState0 env) es).1.lastError ∧
    (stepEv (runEvents (mkState0 env) es).1 Event.cleanupEvt).1.lastError = "" := by
  have hu := uninitClean_run (mkState0 env) es (uninitClean_mkState0 env) hv
  refine ⟨stepEv_lastError _ e h1 h2, ?_⟩
  set s := (runEvents (mkState0 env) es).1 with hsdef
  by_cases h : s.initialized
  · simp [stepEv, doCleanup, h]
  · have hfalse : s.initialized = false := by simpa using h
    simp [stepEv, doCleanup, hfalse, (hu hfalse).2.2.2]

/-- C8 witness: after an error, a `CheckForUpdates()` keeps the error
text and a `Cleanup()` clears it. -/
theorem C8_lastError_sticky_witness :
    validFrom (mkState0 env0)
        [Event.initEvt, Event.foreignEvt ForeignCallback.error] = true ∧
    ¬ Event.checkEvt = Event.foreignEvt ForeignCallback.error ∧
    ¬ Event.checkEvt = Event.cleanupEvt ∧
    ((stepEv (runEvents (mkState0 env0)
          [Event.initEvt, Event.foreignEvt ForeignCallback.error]).1
        Event.checkEvt).1.lastError =
      (runEvents (mkState0 env0)
          [Event.initEvt, Event.foreignEvt ForeignCallback.error]).1.lastError ∧
     (stepEv (runEvents (mkState0 env0)
          [Event.initEvt, Event.foreignEvt ForeignCallback.error]).1
        Event.cleanupEvt).1.lastError = "") :=
  ⟨by decide, by decide, by decide,
   C8_lastError_sticky env0
     [Event.initEvt, Event.foreignEvt ForeignCallback.error]
     Event.checkEvt (by decide) (by decide) (by decide)⟩

/-- C9: `IsUpdateReady()` is monotone — once true it stays true under
every event except `Cleanup()`; processing the download-complete
callback makes it true; and `Cleanup()` on an initialized controller
resets it to false. -/
theorem C9_updateReady_monotone (s t : GlueState) (e : Event)
    (h : s.updateReady = true) (hne : ¬ e = Event.cleanupEvt)
    (ht : t.initialized = true) :
    (stepEv s e).1.updateReady = true ∧
    (stepEv t (Event.foreignEvt ForeignCallback.updateDownloaded)).1.updateReady
        = true ∧
    (stepEv t Event.cleanupEvt).1.updateReady = false := by
  refine ⟨?_, ?_, ?_⟩
  · cases e with
    | initEvt => by_cases hi : s.initialized <;> simp [stepEv, doInit, hi, h]
    | cleanupEvt => exact absurd rfl hne
    | checkEvt =>
        by_cases hi : s.initialized <;>
          simp [stepEv, doCheckForUpdates, runTasks, runTask, hi, h]
    | foreignEvt c =>
        cases c <;>
          simp [stepEv, runTask, foreignPost, handleUpdateReadyOnUIThread,
            setStatusOnUIThread, h]
    | addObsEvt o => simp [stepEv, h]
    | removeObsEvt o => simp [stepEv, h]
  · simp [stepEv, runTask, foreignPost, handleUpdateReadyOnUIThread,
      setStatusOnUIThread]
  · simp [stepEv, doCleanup, ht]

/-- C9 witness: update ready after download complete, kept across an
error callback, reset by cleanup. -/
theorem C9_updateReady_monotone_witness :
    (runEvents state0
        [Event.initEvt, Event.foreignEvt ForeignCallback.updateDownloaded]).1.updateReady
        = true ∧
    ¬ Event.foreignEvt ForeignCallback.error = Event.cleanupEvt ∧
    stateInit.initialized = true ∧
    ((stepEv (runEvents state0
          [Event.initEvt, Event.foreignEvt ForeignCallback.updateDownloaded]).1
        (Event.foreignEvt ForeignCallback.error)).1.updateReady = true ∧
     (stepEv stateInit
        (Event.foreignEvt ForeignCallback.updateDownloaded)).1.updateReady = true ∧
     (stepEv stateInit Event.cleanupEvt).1.updateReady = false) :=
  ⟨by decide, by decide, by decide,
   C9_updateReady_monotone
     (runEvents state0
       [Event.initEvt, Event.foreignEvt ForeignCallback.updateDownloaded]).1
     stateInit (Event.foreignEvt ForeignCallback.error)
     (by decide) (by decide) (by decide)⟩

theorem readyLatest_step (s : GlueState) (e : Event)
    (hs : s.status = WinSparkleStatus.kReadyToInstall →
      s.pendingVersion = "latest") :
    ((stepEv s e).1.status = WinSparkleStatus.kReadyToInstall →
      (stepEv s e).1.pendingVersion = "latest") ∧
    (∀ v : String, Action.setBuildState v ∈ (stepEv s e).2 → v = "latest") := by
  cases e with
  | initEvt =>
      by_cases h : s.initialized <;> simp [stepEv, doInit, h] <;> exact hs
  | cleanupEvt =>
      by_cases h : s.initialized <;> simp [stepEv, doCleanup, h] <;> exact hs
  | checkEvt =>
      by_cases h : s.initialized <;>
        simp [stepEv, doCheckForUpdates, runTasks, runTask, h] <;> exact hs
  | foreignEvt c =>
      cases c with
      | updateDownloaded =>
          constructor
          · intro _
            exact stepEv_updateDownloaded_pending s
          · intro v hv
            simp [stepEv, runTask, foreignPost, handleUpdateReadyOnUIThread,
              setStatusOnUIThread, notifyUpgradeReady] at hv
            rcases hv with hv | hv
            · exact absurd hv (setBuildState_not_mem_notifyObservers _ _ _ _)
            · exact hv.2
      | didFindUpdate =>
          constructor
          · simp [stepEv_foreign_status, cbTarget]
          · intro v hv
            simp [stepEv, runTask, foreignPost, setStatusOnUIThread] at hv
            exact absurd hv (setBuildState_not_mem_notifyObservers _ _ _ _)
      | didNotFindUpdate =>
          constructor
          · simp [stepEv_foreign_status, cbTarget]
          · intro v hv
            simp [stepEv, runTask, foreignPost, setStatusOnUIThread] at hv
            exact absurd hv (setBuildState_not_mem_notifyObservers _ _ _ _)
      | updateCancelled =>
          constructor
          · simp [stepEv_foreign_status, cbTarget]
          · intro v hv
            simp [stepEv, runTask, foreignPost, setStatusOnUIThread] at hv
            exact absurd hv (setBuildState_not_mem_notifyObservers _ _ _ _)
      | error =>
          constructor
          · simp [stepEv_foreign_status, cbTarget]
          · intro v hv
            simp [stepEv, runTask, foreignPost, setStatusOnUIThread] at hv
            exact absurd hv (setBuildState_not_mem_notifyObservers _ _ _ _)
  | addObsEvt o => simp [stepEv] <;> exact hs
  | removeObsEvt o => simp [stepEv] <;> exact hs

theorem readyLatest_run (s : GlueState) (es : List Event)
    (hs : s.status = WinSparkleStatus.kReadyToInstall →
      s.pendingVersion = "latest") :
    ((runEvents s es).1.status = WinSparkleStatus.kReadyToInstall →
      (runEvents s es).1.pendingVersion = "latest") ∧
    (∀ v : String, Action.setBuildState v ∈ (runEvents s es).2 → v = "latest") := by
  induction es generalizing s with
  | nil =>
      constructor
      · simpa [runEvents] using hs
      · intro v hv
        simp [runEvents] at hv
  | cons e es ih =>
      have hstep := readyLatest_step s e hs
      have ih2 := ih (stepEv s e).1 hstep.1
      constructor
      · exact ih2.1
      · intro v hv
        simp only [runEvents, List.mem_append] at hv
        rcases hv with hv | hv
        · exact hstep.2 v hv
        · exact ih2.2 v hv

/-- C10: whenever the status reaches `ReadyToInstall`, the recorded
pending version is the fixed placeholder "latest" — never an actual
version number — and every notification of the Host Adapter's update
indicator in any run carries exactly the version "latest". -/
theorem C10_pending_version_latest (env : Env) (es : List Event) :
    ((runEvents (mkState0 env) es).1.status = WinSparkleStatus.kReadyToInstall →
      (runEvents (mkState0 env) es).1.pendingVersion = "latest") ∧
    (∀ v : String,
      Action.setBuildState v ∈ (runEvents (mkState0 env) es).2 → v = "latest") :=
  readyLatest_run (mkState0 env) es (by simp [mkState0])

/-- C10 witness: after a download-complete event the status is
`ReadyToInstall` and the pending version is "latest". -/
theorem C10_pending_version_latest_witness :
    (runEvents (mkState0 env0)
        [Event.initEvt, Event.foreignEvt ForeignCallback.updateDownloaded]).1.status
        = WinSparkleStatus.kReadyToInstall ∧
    (runEvents (mkState0 env0)
        [Event.initEvt, Event.foreignEvt ForeignCallback.updateDownloaded]).1.pendingVersion
        = "latest" :=
  ⟨by decide,
   (C10_pending_version_latest env0
     [Event.initEvt, Event.foreignEvt ForeignCallback.updateDownloaded]).1
     (by decide)⟩

end WinSparkleGlue
